import Mathlib

/-!
Shallow embedding of `examples/extract_site_gee_subset.py`.

The script fetches PhenoCam site metadata over HTTP, loops over calendar
years, calls the external `gee_subset` extraction function once per year,
concatenates the yearly tables and writes the result to a CSV file.

The embedding abstracts the external world:
* the HTTP response is a value of `ApiResponse` (status code, `count`
  field and `results` array, as the script reads them from the JSON body);
* the external extraction function `gee_subset` is an oracle
  `gee : GeeCall → List ρ` mapping a call record to a table of rows of an
  abstract row type `ρ` (a pandas DataFrame is modelled as its row list);
* `ee.Initialize()` is a session precondition with no data flow and is
  not modelled;
* standard output and standard error are modelled as lists of messages
  (for `print` the trailing newline is left implicit; for
  `sys.stderr.write` the string is kept verbatim, newline included);
* latitude and longitude are passed through unchanged by the script
  (`float(lat)` / `float(lon)` only convert the JSON number), so they are
  modelled as rationals.
-/

namespace ExtractSite

/-- One record of the `results` array of the PhenoCam API JSON body, with
the four fields the script reads (`Lat`, `Lon`, `date_first`,
`date_last`). -/
structure SiteRecord where
  Lat : Rat
  Lon : Rat
  date_first : String
  date_last : String
deriving DecidableEq

/-- The JSON body of the metadata response together with the HTTP status
code, as far as the script inspects it: `response.status_code`,
`info_json['count']` and `info_json['results']`. -/
structure ApiResponse where
  status_code : Nat
  count : Nat
  results : List SiteRecord
deriving DecidableEq

/-- `get_siteinfo(sitename)`: returns the parsed JSON body (`info_json`)
or `None`, paired with the messages written to standard error.

Faithful to the source: on a non-200 status it writes two messages and
returns `None`; on a zero `count` it writes the "not found" message, then
the bare expression statement `sys.exit` (an attribute reference, not a
call) has no effect, and the function falls through to
`return info_json`. -/
def get_siteinfo (sitename : String) (response : ApiResponse) :
    Option ApiResponse × List String :=
  if response.status_code ≠ 200 then
    (none,
     ["Error getting site info for " ++ sitename ++ ".\n",
      "HTTP Status_code: " ++ toString response.status_code ++ "\n"])
  else if response.count = 0 then
    (some response, ["Site " ++ sitename ++ " not found.\n"])
  else
    (some response, [])

/-- The argument record of one `gee_subset(...)` call. -/
structure GeeCall where
  product : String
  bands : List String
  start_date : String
  end_date : String
  latitude : Rat
  longitude : Rat
  scale : Nat
  pad : Nat
deriving DecidableEq

/-- The fixed band tuple of the script. -/
def theBands : List String :=
  ["Nadir_Reflectance_Band1", "Nadir_Reflectance_Band2",
   "Nadir_Reflectance_Band3"]

/-- The fixed product identifier of the script. -/
def theProduct : String := "MODIS/006/MCD43A4"

/-- The `gee_subset` call the loop body issues for a given year:
`start_date = "{year}-01-01"`, `end_date = "{year+1}-01-01"`, fixed
product, fixed bands, the site's coordinates, `scale=500`, `pad=0`. -/
def yearCall (lat lon : Rat) (year : Int) : GeeCall :=
  { product := theProduct
    bands := theBands
    start_date := toString year ++ "-01-01"
    end_date := toString (year + 1) ++ "-01-01"
    latitude := lat
    longitude := lon
    scale := 500
    pad := 0 }

/-- `intRangeAux a n` is the list `[a, a+1, ..., a+n-1]`. -/
def intRangeAux : Int → Nat → List Int
  | _, 0 => []
  | a, n + 1 => a :: intRangeAux (a + 1) n

/-- Python `range(a, b)` over integers with step 1. -/
def pyRange (a b : Int) : List Int := intRangeAux a (b - a).toNat

/-- Python `str.split(sep)` for a one-character separator, over the
character list: splits at every occurrence of `sep`, keeping empty
components; the accumulator holds the current component reversed. -/
def splitOnCharAux (sep : Char) : List Char → List Char → List (List Char)
  | [], acc => [acc.reverse]
  | c :: cs, acc =>
      if c = sep then acc.reverse :: splitOnCharAux sep cs []
      else splitOnCharAux sep cs (c :: acc)

/-- `s.split(sep)` for a one-character separator. -/
def splitOnChar (sep : Char) (s : List Char) : List (List Char) :=
  splitOnCharAux sep s []

/-- Decimal digit run for `int`: accumulates the value, `none` on the
first non-digit character. -/
def parseDigitsAux : List Char → Nat → Option Nat
  | [], acc => some acc
  | c :: cs, acc =>
      if '0' ≤ c ∧ c ≤ '9' then
        parseDigitsAux cs (acc * 10 + (c.toNat - Char.toNat '0'))
      else none

/-- Python `int(s)` on a decimal string: an optional sign followed by at
least one digit; `none` models the `ValueError` raised on anything else.
(The whitespace and underscore tolerance of CPython's `int` is not
modelled: the script feeds it date components.) -/
def pyInt : List Char → Option Int
  | [] => none
  | '-' :: cs =>
      if cs = [] then none
      else (parseDigitsAux cs 0).map (fun n => -(n : Int))
  | '+' :: cs =>
      if cs = [] then none
      else (parseDigitsAux cs 0).map (fun n => (n : Int))
  | cs => (parseDigitsAux cs 0).map (fun n => (n : Int))

/-- `int(date_first.split('-')[0])`: the start year parsed from the first
`-`-separated component of `date_first`; `none` models the `ValueError`
that `int` raises on a non-numeric component. (`split` of a non-empty
separator always returns at least one component, so the `[0]` index
itself cannot fail.) -/
def parseStartYear (date_first : String) : Option Int :=
  pyInt ((splitOnChar '-' date_first.toList).headD [])

/-- The `for year in range(start_year, end_year + 1)` loop. Returns the
issued calls in order, the accumulated optional DataFrame (`df` starts as
`None`; the first year replaces it, later years append via
`pd.concat([df, ydf])`), and the `"year: {}"` lines printed to standard
output. -/
def extractLoop {ρ : Type} (gee : GeeCall → List ρ) (lat lon : Rat) :
    List Int → Option (List ρ) → List GeeCall × Option (List ρ) × List String
  | [], df => ([], df, [])
  | y :: ys, df =>
      let ydf := gee (yearCall lat lon y)
      let df' := match df with
        | none => some ydf
        | some d => some (d ++ ydf)
      let rest := extractLoop gee lat lon ys df'
      (yearCall lat lon y :: rest.1, rest.2.1,
       ("year: " ++ toString y) :: rest.2.2)

/-- The `df.to_csv(outfile, index=False)` write: target path, the `index`
keyword, and the written table. -/
structure CsvWrite (ρ : Type) where
  path : String
  index : Bool
  table : List ρ
deriving DecidableEq

/-- How a run of the `__main__` block ends.

* `earlyExit`: `site_info is None`, so `sys.exit()` (a real call) stops
  the run; no extraction call is made and no file is written.
* `indexError`: `site_info['results'][0]` on an empty `results` array
  raises an uncaught `IndexError`.
* `valueError`: `int(date_first.split('-')[0])` raises an uncaught
  `ValueError`.
* `attrError`: the loop ran zero iterations, `df` is still `None`, and
  `df.to_csv(...)` raises an uncaught `AttributeError`; no file is
  written.
* `success`: the combined table is written and the closing line is
  printed.

Each constructor carries the standard output and standard error produced
up to that point, and the calls issued where any were. -/
inductive RunOutcome (ρ : Type) where
  | earlyExit (stdout stderr : List String)
  | indexError (stdout stderr : List String)
  | valueError (stdout stderr : List String)
  | attrError (stdout stderr : List String) (calls : List GeeCall)
  | success (stdout stderr : List String) (calls : List GeeCall)
      (write : CsvWrite ρ)
deriving DecidableEq

/-- The two `print`s guarded by `if verbose:` before the metadata fetch. -/
def verbosePre (verbose : Bool) (sitename : String) : List String :=
  if verbose then ["Verbose: True", "Site Name: " ++ sitename] else []

/-- The four `print`s guarded by the second `if verbose:` after the
first record is unpacked. -/
def verboseSite (verbose : Bool) (r : SiteRecord) : List String :=
  if verbose then
    ["Lat: " ++ toString r.Lat, "Lon: " ++ toString r.Lon,
     "Date First: " ++ r.date_first, "Date Last: " ++ r.date_last]
  else []

/-- The `__main__` block after argument parsing: fetch the site info,
exit if it is `None`, unpack the first result record, parse the start
year, run the yearly loop up to the fixed `end_year = 2017`, and write
the combined table to
`./modis_time_series/{sitename}_gee_subset.csv` with `index=False`,
printing `"{nlines} lines saved to output file"`. -/
def runMain {ρ : Type} (verbose : Bool) (sitename : String)
    (response : ApiResponse) (gee : GeeCall → List ρ) : RunOutcome ρ :=
  let pre := verbosePre verbose sitename
  match get_siteinfo sitename response with
  | (none, errs) => .earlyExit pre errs
  | (some info, errs) =>
      match info.results with
      | [] => .indexError pre errs
      | r :: _ =>
          let pre2 := pre ++ verboseSite verbose r
          match parseStartYear r.date_first with
          | none => .valueError pre2 errs
          | some start_year =>
              let end_year : Int := 2017
              let res := extractLoop gee r.Lat r.Lon
                (pyRange start_year (end_year + 1)) none
              match res.2.1 with
              | none => .attrError (pre2 ++ res.2.2) errs res.1
              | some df =>
                  let outfile :=
                    "./modis_time_series/" ++ sitename ++ "_gee_subset.csv"
                  .success
                    (pre2 ++ res.2.2 ++
                      [toString df.length ++ " lines saved to output file"])
                    errs res.1
                    { path := outfile, index := false, table := df }

/-! ### Helper lemmas about `intRangeAux` and `pyRange` -/

theorem intRangeAux_length (a : Int) (n : Nat) :
    (intRangeAux a n).length = n := by
  induction n generalizing a with
  | zero => rfl
  | succ n ih => simp [intRangeAux, ih]

theorem intRangeAux_get (a : Int) (n : Nat) (i : Nat)
    (h : i < (intRangeAux a n).length) :
    (intRangeAux a n).get ⟨i, h⟩ = a + i := by
  induction n generalizing a i with
  | zero => simp [intRangeAux_length] at h
  | succ n ih =>
      cases i with
      | zero => simp [intRangeAux]
      | succ i =>
          have h' : i < (intRangeAux (a + 1) n).length := by
            simpa [intRangeAux_length] using Nat.lt_of_succ_lt_succ
              (by simpa [intRangeAux_length] using h)
          calc (intRangeAux a (n + 1)).get ⟨i + 1, h⟩
              = (intRangeAux (a + 1) n).get ⟨i, h'⟩ := rfl
            _ = (a + 1) + i := ih (a + 1) i h'
            _ = a + (i + 1 : Nat) := by push_cast; ring

theorem intRangeAux_mem (a y : Int) (n : Nat) :
    y ∈ intRangeAux a n ↔ a ≤ y ∧ y < a + n := by
  induction n generalizing a with
  | zero => simp [intRangeAux]
  | succ n ih =>
      simp only [intRangeAux, List.mem_cons, ih]
      constructor
      · rintro (rfl | ⟨h1, h2⟩)
        · exact ⟨le_refl _, by push_cast; omega⟩
        · constructor <;> [omega; (push_cast at h2 ⊢; omega)]
      · rintro ⟨h1, h2⟩
        rcases eq_or_lt_of_le h1 with rfl | hlt
        · exact Or.inl rfl
        · exact Or.inr ⟨by omega, by push_cast at h2 ⊢; omega⟩

theorem intRangeAux_pairwise (a : Int) (n : Nat) :
    List.Pairwise (· < ·) (intRangeAux a n) := by
  induction n generalizing a with
  | zero => exact List.Pairwise.nil
  | succ n ih =>
      refine List.Pairwise.cons ?_ (ih (a + 1))
      intro y hy
      have := (intRangeAux_mem (a + 1) y n).mp hy
      omega

theorem pyRange_length (a b : Int) :
    (pyRange a b).length = (b - a).toNat := intRangeAux_length a _

theorem pyRange_get (a b : Int) (i : Nat) (h : i < (pyRange a b).length) :
    (pyRange a b).get ⟨i, h⟩ = a + i := intRangeAux_get a _ i h

theorem pyRange_mem (a b y : Int) :
    y ∈ pyRange a b ↔ a ≤ y ∧ y < b := by
  unfold pyRange
  rw [intRangeAux_mem]
  constructor
  · rintro ⟨h1, h2⟩
    refine ⟨h1, ?_⟩
    rcases le_or_lt a b with hab | hab
    · have : ((b - a).toNat : Int) = b - a := Int.toNat_of_nonneg (by omega)
      omega
    · have : (b - a).toNat = 0 := Int.toNat_of_nonpos (by omega)
      omega
  · rintro ⟨h1, h2⟩
    have : ((b - a).toNat : Int) = b - a := Int.toNat_of_nonneg (by omega)
    exact ⟨h1, by omega⟩

theorem pyRange_pairwise (a b : Int) :
    List.Pairwise (· < ·) (pyRange a b) := intRangeAux_pairwise a _

theorem pyRange_cons (a b : Int) (h : a < b) :
    pyRange a b = a :: pyRange (a + 1) b := by
  unfold pyRange
  have h1 : (b - a).toNat = (b - (a + 1)).toNat + 1 := by omega
  rw [h1]
  rfl

theorem pyRange_nil (a b : Int) (h : b ≤ a) : pyRange a b = [] := by
  unfold pyRange
  have : (b - a).toNat = 0 := Int.toNat_of_nonpos (by omega)
  rw [this]
  rfl

/-! ### Helper lemmas about `extractLoop` -/

theorem extractLoop_calls {ρ : Type} (gee : GeeCall → List ρ) (lat lon : Rat)
    (ys : List Int) (df : Option (List ρ)) :
    (extractLoop gee lat lon ys df).1 = ys.map (yearCall lat lon) := by
  induction ys generalizing df with
  | nil => rfl
  | cons y ys ih => simp [extractLoop, ih]

theorem extractLoop_stdout {ρ : Type} (gee : GeeCall → List ρ) (lat lon : Rat)
    (ys : List Int) (df : Option (List ρ)) :
    (extractLoop gee lat lon ys df).2.2 =
      ys.map (fun y => "year: " ++ toString y) := by
  induction ys generalizing df with
  | nil => rfl
  | cons y ys ih => simp [extractLoop, ih]

theorem extractLoop_df_some {ρ : Type} (gee : GeeCall → List ρ)
    (lat lon : Rat) (ys : List Int) (d : List ρ) :
    (extractLoop gee lat lon ys (some d)).2.1 =
      some (d ++ (ys.map (fun y => gee (yearCall lat lon y))).flatten) := by
  induction ys generalizing d with
  | nil => simp [extractLoop]
  | cons y ys ih => simp [extractLoop, ih]

theorem extractLoop_df_none_nil {ρ : Type} (gee : GeeCall → List ρ)
    (lat lon : Rat) :
    (extractLoop gee lat lon [] none).2.1 = (none : Option (List ρ)) := rfl

theorem extractLoop_df_none_cons {ρ : Type} (gee : GeeCall → List ρ)
    (lat lon : Rat) (y : Int) (ys : List Int) :
    (extractLoop gee lat lon (y :: ys) none).2.1 =
      some (((y :: ys).map (fun z => gee (yearCall lat lon z))).flatten) := by
  show (extractLoop gee lat lon ys (some (gee (yearCall lat lon y)))).2.1 = _
  rw [extractLoop_df_some]
  simp

/-! ### A master lemma: the exact success value of `runMain` -/

/-- Under an HTTP 200 response with a nonzero count, a first record whose
`date_first` parses to start year `S ≤ 2017`, `runMain` succeeds and its
whole output is determined: one call per year of `range(S, 2018)`, the
combined table is the in-order flattening of the yearly tables, the file
path and the closing printed line are fixed. -/
theorem runMain_success {ρ : Type} (verbose : Bool) (sitename : String)
    (response : ApiResponse) (gee : GeeCall → List ρ)
    (r : SiteRecord) (rest : List SiteRecord) (S : Int)
    (hstatus : response.status_code = 200)
    (hcount : response.count ≠ 0)
    (hres : response.results = r :: rest)
    (hparse : parseStartYear r.date_first = some S)
    (hS : S ≤ 2017) :
    runMain verbose sitename response gee =
      .success
        (verbosePre verbose sitename ++ verboseSite verbose r ++
          (pyRange S 2018).map (fun y => "year: " ++ toString y) ++
          [toString
            (((pyRange S 2018).map
              (fun y => gee (yearCall r.Lat r.Lon y))).flatten).length ++
            " lines saved to output file"])
        []
        ((pyRange S 2018).map (yearCall r.Lat r.Lon))
        { path := "./modis_time_series/" ++ sitename ++ "_gee_subset.csv"
          index := false
          table := ((pyRange S 2018).map
            (fun y => gee (yearCall r.Lat r.Lon y))).flatten } := by
  have hget : get_siteinfo sitename response = (some response, []) := by
    unfold get_siteinfo
    rw [if_neg (by simp [hstatus]), if_neg hcount]
  have hne : pyRange S 2018 = S :: pyRange (S + 1) 2018 :=
    pyRange_cons S 2018 (by omega)
  have hdf : (extractLoop gee r.Lat r.Lon (pyRange S 2018) none).2.1 =
      some (((pyRange S 2018).map
        (fun z => gee (yearCall r.Lat r.Lon z))).flatten) := by
    rw [hne]
    exact extractLoop_df_none_cons gee r.Lat r.Lon S (pyRange (S + 1) 2018)
  unfold runMain
  rw [hget]
  simp only [hres, hparse]
  rw [show ((2017 : Int) + 1) = 2018 from rfl]
  rw [hdf, extractLoop_calls, extractLoop_stdout]

/-! ### Concrete test fixtures (used by the witnesses) -/

/-- The `results[0]` record of the end-to-end scenario: site `harvard`
with `date_first = "2015-06-01"` and `date_last = "2017-01-01"`. -/
def harvardRecord : SiteRecord :=
  { Lat := 42, Lon := -72, date_first := "2015-06-01",
    date_last := "2017-01-01" }

/-- A 200 response whose `results` array holds exactly `harvardRecord`. -/
def harvardResponse : ApiResponse :=
  { status_code := 200, count := 1, results := [harvardRecord] }

/-- A concrete extraction oracle over `ρ := Nat`: two rows for the 2015
window, one row for any other window, so that yearly tables of different
sizes are visible in the concatenation. -/
def harvardGee : GeeCall → List Nat :=
  fun c => if c.start_date = "2015-01-01" then [0, 1] else [2]

/-- A 200 response with `count = 0` and an empty `results` array. -/
def noSiteResponse : ApiResponse :=
  { status_code := 200, count := 0, results := [] }

/-- A failed HTTP response (status 404). -/
def badResponse : ApiResponse :=
  { status_code := 404, count := 0, results := [] }

/-- A second, different record, used to show the fetcher's return value
still carries records beyond the first one. -/
def secondRecord : SiteRecord :=
  { Lat := 10, Lon := 20, date_first := "2000-01-01",
    date_last := "2001-01-01" }

/-- A 200 response whose `results` array holds two distinct records. -/
def twoSiteResponse : ApiResponse :=
  { status_code := 200, count := 2, results := [harvardRecord, secondRecord] }

/-- A record whose `date_first` starts after the fixed end year 2017. -/
def lateRecord : SiteRecord :=
  { Lat := 1, Lon := 2, date_first := "2019-01-01",
    date_last := "2020-01-01" }

/-- A 200 response whose only record is `lateRecord`. -/
def lateResponse : ApiResponse :=
  { status_code := 200, count := 1, results := [lateRecord] }

/-! ### Claim theorems -/

/-- C1: for a 200 response with nonzero count whose first record's
`date_first` parses to start year `S ≤ 2017`, the yearly loop issues
exactly one extraction call per calendar year from `S` through the fixed
end year 2017 inclusive — the calls map one-to-one onto
`range(S, 2018)`, a strictly increasing list of length `2017 - S + 1`
whose members are exactly the years `S ≤ y ≤ 2017`. -/
theorem yearly_loop_one_call_per_year {ρ : Type} (verbose : Bool)
    (sitename : String) (response : ApiResponse) (gee : GeeCall → List ρ)
    (r : SiteRecord) (rest : List SiteRecord) (S : Int)
    (hstatus : response.status_code = 200)
    (hcount : response.count ≠ 0)
    (hres : response.results = r :: rest)
    (hparse : parseStartYear r.date_first = some S)
    (hS : S ≤ 2017) :
    ∃ out errs w,
      runMain verbose sitename response gee =
        .success out errs ((pyRange S 2018).map (yearCall r.Lat r.Lon)) w
      ∧ ((pyRange S 2018).map (yearCall r.Lat r.Lon)).length
          = (2017 - S + 1).toNat
      ∧ List.Pairwise (· < ·) (pyRange S 2018)
      ∧ (∀ y : Int, y ∈ pyRange S 2018 ↔ S ≤ y ∧ y ≤ 2017) := by
  refine ⟨_, _, _,
    runMain_success verbose sitename response gee r rest S hstatus hcount
      hres hparse hS, ?_, pyRange_pairwise S 2018, ?_⟩
  · rw [List.length_map, pyRange_length]
    congr 1
    omega
  · intro y
    rw [pyRange_mem]
    omega

/-- Witness for `yearly_loop_one_call_per_year`: the harvard fixture,
start year 2015. -/
theorem yearly_loop_one_call_per_year_witness :
    ∃ out errs w,
      runMain false "harvard" harvardResponse harvardGee =
        .success out errs
          ((pyRange 2015 2018).map
            (yearCall harvardRecord.Lat harvardRecord.Lon)) w
      ∧ ((pyRange 2015 2018).map
          (yearCall harvardRecord.Lat harvardRecord.Lon)).length
          = ((2017 : Int) - 2015 + 1).toNat
      ∧ List.Pairwise (· < ·) (pyRange 2015 2018)
      ∧ (∀ y : Int, y ∈ pyRange 2015 2018 ↔ 2015 ≤ y ∧ y ≤ 2017) :=
  yearly_loop_one_call_per_year false "harvard" harvardResponse harvardGee
    harvardRecord [] 2015 rfl (by decide) rfl (by decide) (by decide)

/-- C2: every call the loop issues for the `i`-th iterated year `S + i`
carries the fixed product identifier, the fixed three-band list,
`start_date = "{S+i}-01-01"`, `end_date = "{S+i+1}-01-01"`, the first
record's coordinates, `scale = 500` and `pad = 0`. -/
theorem yearly_call_arguments {ρ : Type} (verbose : Bool)
    (sitename : String) (response : ApiResponse) (gee : GeeCall → List ρ)
    (r : SiteRecord) (rest : List SiteRecord) (S : Int)
    (hstatus : response.status_code = 200)
    (hcount : response.count ≠ 0)
    (hres : response.results = r :: rest)
    (hparse : parseStartYear r.date_first = some S)
    (hS : S ≤ 2017) :
    ∃ out errs w,
      runMain verbose sitename response gee =
        .success out errs ((pyRange S 2018).map (yearCall r.Lat r.Lon)) w
      ∧ ∀ i (h : i < ((pyRange S 2018).map (yearCall r.Lat r.Lon)).length),
          ((pyRange S 2018).map (yearCall r.Lat r.Lon)).get ⟨i, h⟩ =
            { product := "MODIS/006/MCD43A4"
              bands := ["Nadir_Reflectance_Band1", "Nadir_Reflectance_Band2",
                        "Nadir_Reflectance_Band3"]
              start_date := toString (S + (i : Int)) ++ "-01-01"
              end_date := toString (S + (i : Int) + 1) ++ "-01-01"
              latitude := r.Lat
              longitude := r.Lon
              scale := 500
              pad := 0 } := by
  refine ⟨_, _, _,
    runMain_success verbose sitename response gee r rest S hstatus hcount
      hres hparse hS, ?_⟩
  intro i h
  have h' : i < (pyRange S 2018).length := by simpa using h
  have hmap : ((pyRange S 2018).map (yearCall r.Lat r.Lon)).get ⟨i, h⟩ =
      yearCall r.Lat r.Lon ((pyRange S 2018).get ⟨i, h'⟩) := by
    simp [List.get_eq_getElem, List.getElem_map]
  rw [hmap, pyRange_get]
  rfl

/-- Witness for `yearly_call_arguments` at the harvard fixture. -/
theorem yearly_call_arguments_witness :
    ∃ out errs w,
      runMain false "harvard" harvardResponse harvardGee =
        .success out errs
          ((pyRange 2015 2018).map
            (yearCall harvardRecord.Lat harvardRecord.Lon)) w
      ∧ ∀ i (h : i < ((pyRange 2015 2018).map
            (yearCall harvardRecord.Lat harvardRecord.Lon)).length),
          ((pyRange 2015 2018).map
            (yearCall harvardRecord.Lat harvardRecord.Lon)).get ⟨i, h⟩ =
            { product := "MODIS/006/MCD43A4"
              bands := ["Nadir_Reflectance_Band1", "Nadir_Reflectance_Band2",
                        "Nadir_Reflectance_Band3"]
              start_date := toString ((2015 : Int) + (i : Int)) ++ "-01-01"
              end_date := toString ((2015 : Int) + (i : Int) + 1) ++ "-01-01"
              latitude := harvardRecord.Lat
              longitude := harvardRecord.Lon
              scale := 500
              pad := 0 } :=
  yearly_call_arguments false "harvard" harvardResponse harvardGee
    harvardRecord [] 2015 rfl (by decide) rfl (by decide) (by decide)

/-- C3: the combined table is the row-wise concatenation of the yearly
tables in iteration (year) order, and its row count is the sum of the
yearly row counts. -/
theorem combined_table_is_concat_in_order {ρ : Type} (verbose : Bool)
    (sitename : String) (response : ApiResponse) (gee : GeeCall → List ρ)
    (r : SiteRecord) (rest : List SiteRecord) (S : Int)
    (hstatus : response.status_code = 200)
    (hcount : response.count ≠ 0)
    (hres : response.results = r :: rest)
    (hparse : parseStartYear r.date_first = some S)
    (hS : S ≤ 2017) :
    ∃ out errs calls,
      runMain verbose sitename response gee =
        .success out errs calls
          { path := "./modis_time_series/" ++ sitename ++ "_gee_subset.csv"
            index := false
            table := ((pyRange S 2018).map
              (fun y => gee (yearCall r.Lat r.Lon y))).flatten }
      ∧ (((pyRange S 2018).map
            (fun y => gee (yearCall r.Lat r.Lon y))).flatten).length
          = ((pyRange S 2018).map
              (fun y => (gee (yearCall r.Lat r.Lon y)).length)).sum := by
  refine ⟨_, _, _,
    runMain_success verbose sitename response gee r rest S hstatus hcount
      hres hparse hS, ?_⟩
  rw [List.length_flatten, List.map_map]
  rfl

/-- Witness for `combined_table_is_concat_in_order` at the harvard
fixture. -/
theorem combined_table_is_concat_in_order_witness :
    ∃ out errs calls,
      runMain false "harvard" harvardResponse harvardGee =
        .success out errs calls
          { path := "./modis_time_series/" ++ "harvard" ++ "_gee_subset.csv"
            index := false
            table := ((pyRange 2015 2018).map
              (fun y => harvardGee
                (yearCall harvardRecord.Lat harvardRecord.Lon y))).flatten }
      ∧ (((pyRange 2015 2018).map
            (fun y => harvardGee
              (yearCall harvardRecord.Lat harvardRecord.Lon y))).flatten).length
          = ((pyRange 2015 2018).map
              (fun y => (harvardGee
                (yearCall harvardRecord.Lat harvardRecord.Lon y)).length)).sum :=
  combined_table_is_concat_in_order false "harvard" harvardResponse
    harvardGee harvardRecord [] 2015 rfl (by decide) rfl (by decide) (by decide)

/-- C4: on a 200 response with a zero `count`, `get_siteinfo` writes the
"not found" message to standard error but does not terminate: the bare
`sys.exit` reference is a no-op, execution continues past the branch, and
the function returns the JSON body. -/
theorem zero_count_reports_not_found_and_returns (sitename : String)
    (response : ApiResponse)
    (h200 : response.status_code = 200)
    (h0 : response.count = 0) :
    get_siteinfo sitename response =
      (some response, ["Site " ++ sitename ++ " not found.\n"]) := by
  unfold get_siteinfo
  rw [if_neg (by simp [h200]), if_pos h0]

/-- Witness for `zero_count_reports_not_found_and_returns`. -/
theorem zero_count_reports_not_found_and_returns_witness :
    get_siteinfo "foo" noSiteResponse =
      (some noSiteResponse, ["Site " ++ "foo" ++ " not found.\n"]) :=
  zero_count_reports_not_found_and_returns "foo" noSiteResponse rfl rfl

/-- C5: on a non-200 response, `get_siteinfo` writes the status-code
message to standard error and returns `None`, and the `__main__` block
then exits early via `sys.exit()`: the run ends in `earlyExit`, which
carries no extraction call and no file write. -/
theorem non_200_returns_none_and_main_exits {ρ : Type} (verbose : Bool)
    (sitename : String) (response : ApiResponse) (gee : GeeCall → List ρ)
    (h : response.status_code ≠ 200) :
    get_siteinfo sitename response =
      (none,
       ["Error getting site info for " ++ sitename ++ ".\n",
        "HTTP Status_code: " ++ toString response.status_code ++ "\n"])
    ∧ runMain verbose sitename response gee =
        .earlyExit (verbosePre verbose sitename)
          ["Error getting site info for " ++ sitename ++ ".\n",
           "HTTP Status_code: " ++ toString response.status_code ++ "\n"] := by
  have hg : get_siteinfo sitename response =
      (none,
       ["Error getting site info for " ++ sitename ++ ".\n",
        "HTTP Status_code: " ++ toString response.status_code ++ "\n"]) := by
    unfold get_siteinfo
    rw [if_pos h]
  refine ⟨hg, ?_⟩
  unfold runMain
  rw [hg]

/-- Witness for `non_200_returns_none_and_main_exits`: a 404 response. -/
theorem non_200_returns_none_and_main_exits_witness :
    get_siteinfo "foo" badResponse =
      (none,
       ["Error getting site info for " ++ "foo" ++ ".\n",
        "HTTP Status_code: " ++ toString badResponse.status_code ++ "\n"])
    ∧ runMain false "foo" badResponse harvardGee =
        .earlyExit (verbosePre false "foo")
          ["Error getting site info for " ++ "foo" ++ ".\n",
           "HTTP Status_code: " ++ toString badResponse.status_code ++ "\n"] :=
  non_200_returns_none_and_main_exits false "foo" badResponse harvardGee
    (by decide)

/-- C6 counterexample: on a 200 response with two distinct matching
records, `get_siteinfo` returns the whole response body — both records
are still present in its return value — not just the first record's four
fields as plain values. -/
theorem fetcher_returns_whole_body :
    (get_siteinfo "harvard" twoSiteResponse).1 = some twoSiteResponse
    ∧ twoSiteResponse.results.length = 2
    ∧ twoSiteResponse.results[1]? ≠ twoSiteResponse.results[0]? := by
  decide

/-- C6 amended: on a 200 response with a nonzero count, `get_siteinfo`
returns the full JSON body unchanged (with empty standard error); it is
the `__main__` block that then extracts the FIRST record's `Lat`, `Lon`,
`date_first`, `date_last` and uses them — every extraction call carries
the first record's coordinates. -/
theorem fetcher_full_body_and_main_extracts_first {ρ : Type}
    (verbose : Bool) (sitename : String) (response : ApiResponse)
    (gee : GeeCall → List ρ)
    (r : SiteRecord) (rest : List SiteRecord) (S : Int)
    (hstatus : response.status_code = 200)
    (hcount : response.count ≠ 0)
    (hres : response.results = r :: rest)
    (hparse : parseStartYear r.date_first = some S)
    (hS : S ≤ 2017) :
    get_siteinfo sitename response = (some response, [])
    ∧ ∃ out errs w,
        runMain verbose sitename response gee =
          .success out errs ((pyRange S 2018).map (yearCall r.Lat r.Lon)) w
        ∧ ∀ c ∈ (pyRange S 2018).map (yearCall r.Lat r.Lon),
            c.latitude = r.Lat ∧ c.longitude = r.Lon := by
  constructor
  · unfold get_siteinfo
    rw [if_neg (by simp [hstatus]), if_neg hcount]
  · refine ⟨_, _, _,
      runMain_success verbose sitename response gee r rest S hstatus hcount
        hres hparse hS, ?_⟩
    intro c hc
    simp only [List.mem_map] at hc
    obtain ⟨y, _, rfl⟩ := hc
    exact ⟨rfl, rfl⟩

/-- Witness for `fetcher_full_body_and_main_extracts_first` at the
harvard fixture. -/
theorem fetcher_full_body_and_main_extracts_first_witness :
    get_siteinfo "harvard" harvardResponse = (some harvardResponse, [])
    ∧ ∃ out errs w,
        runMain false "harvard" harvardResponse harvardGee =
          .success out errs
            ((pyRange 2015 2018).map
              (yearCall harvardRecord.Lat harvardRecord.Lon)) w
        ∧ ∀ c ∈ (pyRange 2015 2018).map
              (yearCall harvardRecord.Lat harvardRecord.Lon),
            c.latitude = harvardRecord.Lat ∧ c.longitude = harvardRecord.Lon :=
  fetcher_full_body_and_main_extracts_first false "harvard" harvardResponse
    harvardGee harvardRecord [] 2015 rfl (by decide) rfl (by decide) (by decide)

/-- C7: every run that reaches the CSV write writes the combined table to
`./modis_time_series/{sitename}_gee_subset.csv` with `index=False`, and
the last line printed to standard output reports the written table's row
count. -/
theorem success_run_writes_csv {ρ : Type} (verbose : Bool)
    (sitename : String) (response : ApiResponse) (gee : GeeCall → List ρ)
    (out errs : List String) (calls : List GeeCall) (w : CsvWrite ρ)
    (h : runMain verbose sitename response gee =
      RunOutcome.success out errs calls w) :
    w.path = "./modis_time_series/" ++ sitename ++ "_gee_subset.csv"
    ∧ w.index = false
    ∧ out.getLast? =
        some (toString w.table.length ++ " lines saved to output file") := by
  unfold runMain at h
  split at h
  · exact absurd h (by simp)
  · split at h
    · exact absurd h (by simp)
    · split at h
      · exact absurd h (by simp)
      · simp only [] at h
        split at h
        · exact absurd h (by simp)
        · rw [RunOutcome.success.injEq] at h
          obtain ⟨hout, -, -, hw⟩ := h
          subst hout hw
          refine ⟨rfl, rfl, ?_⟩
          rw [List.getLast?_concat]

/-- Witness for `success_run_writes_csv` at the harvard fixture. -/
theorem success_run_writes_csv_witness :
    ({ path := "./modis_time_series/harvard_gee_subset.csv", index := false,
       table := [0, 1, 2, 2] } : CsvWrite Nat).path =
        "./modis_time_series/" ++ "harvard" ++ "_gee_subset.csv"
    ∧ ({ path := "./modis_time_series/harvard_gee_subset.csv",
         index := false, table := [0, 1, 2, 2] } : CsvWrite Nat).index = false
    ∧ (["year: 2015", "year: 2016", "year: 2017",
        "4 lines saved to output file"] : List String).getLast? =
        some (toString
          (({ path := "./modis_time_series/harvard_gee_subset.csv",
              index := false,
              table := [0, 1, 2, 2] } : CsvWrite Nat).table).length ++
          " lines saved to output file") :=
  success_run_writes_csv false "harvard" harvardResponse harvardGee
    ["year: 2015", "year: 2016", "year: 2017",
     "4 lines saved to output file"] []
    [yearCall 42 (-72) 2015, yearCall 42 (-72) 2016, yearCall 42 (-72) 2017]
    { path := "./modis_time_series/harvard_gee_subset.csv", index := false,
      table := [0, 1, 2, 2] }
    (by decide)

/-- C8: a run for site `harvard` whose first record has
`date_first = "2015-06-01"` and `date_last = "2017-01-01"` issues
extraction calls for exactly the years 2015, 2016 and 2017, writes
`./modis_time_series/harvard_gee_subset.csv`, and prints as its last
standard-output line a row count equal to the combined table's length. -/
theorem harvard_end_to_end {ρ : Type} (verbose : Bool)
    (gee : GeeCall → List ρ) (lat lon : Rat) (count : Nat)
    (rest : List SiteRecord) (dlast : String)
    (hcount : count ≠ 0) :
    ∃ out errs w,
      runMain verbose "harvard"
        { status_code := 200, count := count,
          results :=
            { Lat := lat, Lon := lon, date_first := "2015-06-01",
              date_last := dlast } :: rest } gee =
        .success out errs
          [yearCall lat lon 2015, yearCall lat lon 2016, yearCall lat lon 2017]
          w
      ∧ w.path = "./modis_time_series/harvard_gee_subset.csv"
      ∧ out.getLast? =
          some (toString w.table.length ++ " lines saved to output file") := by
  have h := runMain_success verbose "harvard"
    { status_code := 200, count := count,
      results :=
        { Lat := lat, Lon := lon, date_first := "2015-06-01",
          date_last := dlast } :: rest } gee
    { Lat := lat, Lon := lon, date_first := "2015-06-01",
      date_last := dlast } rest 2015 rfl hcount rfl
    (show parseStartYear "2015-06-01" = some 2015 by decide) (by decide)
  have hpy : pyRange 2015 2018 = [2015, 2016, 2017] := by decide
  rw [hpy] at h
  refine ⟨_, _, _, h, rfl, ?_⟩
  rw [List.getLast?_concat]

/-- Witness for `harvard_end_to_end` at the concrete fixture oracle. -/
theorem harvard_end_to_end_witness :
    ∃ out errs w,
      runMain false "harvard"
        { status_code := 200, count := 1,
          results :=
            { Lat := 42, Lon := -72, date_first := "2015-06-01",
              date_last := "2017-01-01" } :: [] } harvardGee =
        .success out errs
          [yearCall 42 (-72) 2015, yearCall 42 (-72) 2016,
           yearCall 42 (-72) 2017] w
      ∧ w.path = "./modis_time_series/harvard_gee_subset.csv"
      ∧ out.getLast? =
          some (toString w.table.length ++ " lines saved to output file") :=
  harvard_end_to_end false harvardGee 42 (-72) 1 [] "2017-01-01" (by decide)

/-- C9: on a 200 response with `count = 0` and an empty `results` array,
`get_siteinfo` still returns the full JSON body rather than `None`; the
`__main__` block then indexes `results[0]` on the empty array and the run
ends in an uncaught `IndexError` — no extraction call, no output file. -/
theorem zero_count_empty_results_index_error {ρ : Type} (verbose : Bool)
    (sitename : String) (response : ApiResponse) (gee : GeeCall → List ρ)
    (h200 : response.status_code = 200)
    (h0 : response.count = 0)
    (hres : response.results = []) :
    (get_siteinfo sitename response).1 = some response
    ∧ runMain verbose sitename response gee =
        .indexError (verbosePre verbose sitename)
          ["Site " ++ sitename ++ " not found.\n"] := by
  have hg : get_siteinfo sitename response =
      (some response, ["Site " ++ sitename ++ " not found.\n"]) := by
    unfold get_siteinfo
    rw [if_neg (by simp [h200]), if_pos h0]
  refine ⟨by rw [hg], ?_⟩
  unfold runMain
  rw [hg]
  simp only [hres]

/-- Witness for `zero_count_empty_results_index_error`. -/
theorem zero_count_empty_results_index_error_witness :
    (get_siteinfo "foo" noSiteResponse).1 = some noSiteResponse
    ∧ runMain false "foo" noSiteResponse harvardGee =
        .indexError (verbosePre false "foo")
          ["Site " ++ "foo" ++ " not found.\n"] :=
  zero_count_empty_results_index_error false "foo" noSiteResponse harvardGee
    rfl rfl rfl

/-- C10: when the first record's `date_first` parses to a start year
strictly greater than 2017, the yearly loop runs zero iterations (no
extraction call), `df` stays `None`, and the run ends in an uncaught
`AttributeError` at `df.to_csv` — no output file is produced. -/
theorem start_year_after_2017_attribute_error {ρ : Type} (verbose : Bool)
    (sitename : String) (response : ApiResponse) (gee : GeeCall → List ρ)
    (r : SiteRecord) (rest : List SiteRecord) (S : Int)
    (h200 : response.status_code = 200)
    (hcount : response.count ≠ 0)
    (hres : response.results = r :: rest)
    (hparse : parseStartYear r.date_first = some S)
    (hS : 2017 < S) :
    runMain verbose sitename response gee =
      .attrError (verbosePre verbose sitename ++ verboseSite verbose r)
        [] [] := by
  have hg : get_siteinfo sitename response = (some response, []) := by
    unfold get_siteinfo
    rw [if_neg (by simp [h200]), if_neg hcount]
  have hpy : pyRange S 2018 = [] := pyRange_nil S 2018 (by omega)
  unfold runMain
  rw [hg]
  simp only [hres, hparse]
  rw [show ((2017 : Int) + 1) = 2018 from rfl, hpy]
  simp [extractLoop]

/-- Witness for `start_year_after_2017_attribute_error`: start year
2019. -/
theorem start_year_after_2017_attribute_error_witness :
    runMain false "late" lateResponse harvardGee =
      .attrError (verbosePre false "late" ++ verboseSite false lateRecord)
        [] [] :=
  start_year_after_2017_attribute_error false "late" lateResponse harvardGee
    lateRecord [] 2019 rfl (by decide) rfl (by decide) (by decide)

end ExtractSite
